import Mathlib

/-!
A verification development for the openclawpack core: the answer-matching
policy (`commands/answers.py`), the workflow engine (`commands/engine.py`),
the transport adapter (`transport/client.py`), and the typed error taxonomy
(`transport/errors.py`) are embedded shallowly as Lean definitions, and the
behavioural properties of the natural-language specification are settled as
theorems about those definitions.

Modelling conventions:
- Python `str` is Lean `String`; `str | None` is `Option String`.
- Python numeric timeouts (annotated `float`) are modelled as `ℚ`; no
  floating-point arithmetic is performed on them anywhere in the modelled
  code, they are only stored, compared with zero, and copied through.
- Python dicts used as ordered key/value policies are modelled as
  association lists in insertion order (`List (String × String)`); keys of
  a real dict are distinct.
- The asynchronous streaming loop of `ClaudeTransport.run` is modelled by
  making the environment's behaviour an explicit input (`StreamOutcome`):
  either the SDK stream completed within the wall-clock deadline yielding a
  list of messages, or the single deadline guarding the whole loop elapsed,
  or one of the SDK's exception types was raised.
-/

/-- Python truthiness-based `x or d` on an optional numeric value
(`None`, `0` and `0.0` are falsy), as used by
`WorkflowEngine.run_gsd_command` line 89: `self.timeout or DEFAULT_TIMEOUTS.get(...)`. -/
def pyOrNum (x : Option ℚ) (d : ℚ) : ℚ :=
  match x with
  | some v => if v = 0 then d else v
  | none => d

/-- Python truthiness-based `x or d` on an optional string (`None` and `""`
are falsy), as used by `engine.py` line 93: `self.project_dir or os.getcwd()`. -/
def pyOrStr (x : Option String) (d : String) : String :=
  match x with
  | some v => if v = "" then d else v
  | none => d

/-- ASCII model of Python `str.lower()` (maps A-Z to a-z, leaves the rest). -/
def pyLower (s : String) : String := String.mk (s.data.map Char.toLower)

/-- Whether `needle` matches at the head of `hay`. -/
def seqStarts (needle hay : List Char) : Bool :=
  match needle, hay with
  | [], _ => true
  | _ :: _, [] => false
  | a :: as, b :: bs => a == b && seqStarts as bs

/-- Whether `needle` occurs contiguously anywhere in `hay`. -/
def seqSearch (needle : List Char) : List Char → Bool
  | [] => seqStarts needle []
  | c :: rest => seqStarts needle (c :: rest) || seqSearch needle rest

/-- Python substring containment `needle in hay` on strings. -/
def strContainsSub (hay needle : String) : Bool := seqSearch needle.data hay.data

/-- The backslash character, by code point. -/
def backslashChar : Char := Char.ofNat 92

/-- The single-quote character, by code point. -/
def squoteChar : Char := Char.ofNat 39

/-- The double-quote character, by code point. -/
def dquoteChar : Char := Char.ofNat 34

/-- Escaping of one character inside a Python `repr` string literal
(printable-ASCII model: backslash, the enclosing quote, newline, carriage
return and tab are escaped; other characters render as themselves). -/
def pyReprChar (quote c : Char) : String :=
  if c = backslashChar then String.mk [backslashChar, backslashChar]
  else if c = quote then String.mk [backslashChar, quote]
  else if c = Char.ofNat 10 then String.mk [backslashChar, Char.ofNat 110]
  else if c = Char.ofNat 13 then String.mk [backslashChar, Char.ofNat 114]
  else if c = Char.ofNat 9 then String.mk [backslashChar, Char.ofNat 116]
  else String.mk [c]

/-- Model of Python `repr` on a string (`f"{s!r}"`): single quotes are used
unless the string contains a single quote and no double quote. -/
def pyRepr (s : String) : String :=
  let quote := if s.data.contains squoteChar && !(s.data.contains dquoteChar)
    then dquoteChar else squoteChar
  String.mk [quote] ++ String.join (s.data.map (pyReprChar quote)) ++ String.mk [quote]

/-- Rendering of a numeric value interpolated into an f-string. Python
renders ints and floats with `str()`; timeouts are modelled as rationals,
integral values render the way Python renders ints, and non-integral values
get an explicit fraction form (the exact decimal text of a float is never
relied upon by any property below). -/
def numStr (q : ℚ) : String :=
  if q.den = 1 then toString q.num else toString q.num ++ "/" ++ toString q.den

/-- The typed error taxonomy of `transport/errors.py`: one base, five
concrete variants, each carrying its `message` plus variant-specific
context fields. -/
inductive TransportErr
  | CLINotFound (message : String)
  | ProcessError (message : String) (exit_code : Option Int) (stderr : Option String)
  | TransportTimeout (message : String) (timeout_seconds : ℚ)
  | JSONDecodeError (message : String) (raw_output : Option String)
  | ConnectionError_ (message : String)
deriving DecidableEq

/-- The `__str__` renderings of `transport/errors.py`:
`CLINotFound` and `ConnectionError_` inherit `TransportError.__str__`
(just the message); `ProcessError.__str__` joins the message,
`exit_code=<n>` when `exit_code is not None`, and `stderr=<repr>` when
`stderr` is truthy, with `" | "`; `TransportTimeout.__str__` appends
`timeout_seconds=<t>` when `timeout_seconds > 0`;
`JSONDecodeError.__str__` appends `raw_output=<repr of preview>` where the
preview is the first 200 characters plus `"..."` when longer. -/
def TransportErr.str : TransportErr → String
  | .CLINotFound m => m
  | .ProcessError m ec st =>
    let parts := [m]
    let parts := parts ++
      (match ec with | some n => ["exit_code=" ++ toString n] | none => [])
    let parts := parts ++
      (match st with
       | some s => if s = "" then [] else ["stderr=" ++ pyRepr s]
       | none => [])
    String.intercalate " | " parts
  | .TransportTimeout m t =>
    if t > 0 then m ++ " | " ++ ("timeout_seconds=" ++ numStr t) else m
  | .JSONDecodeError m ro =>
    match ro with
    | none => m
    | some r =>
      let preview := r.take 200
      let preview := if r.length > 200 then preview ++ "..." else preview
      m ++ " | " ++ ("raw_output=" ++ pyRepr preview)
  | .ConnectionError_ m => m

/-- An answer policy: the `answer_map` dict of `commands/answers.py`,
modelled as an association list in insertion order. -/
abbrev AnswerMap := List (String × String)

/-- One option of a multiple-choice question: the `{"label": ...}` dict
(`options[0].get("label", "")` collapses a missing label to `""`). -/
structure AnswerOption where
  label : String := ""
deriving DecidableEq

/-- One question carried by an `AskUserQuestion` tool call:
`q.get("question", "")` and `q.get("options", [])`. -/
structure Question where
  question : String := ""
  options : List AnswerOption := []
deriving DecidableEq

/-- The per-question body of the `can_use_tool` loop of
`commands/answers.py` lines 56-90, as the spec's `resolve`:
(1) exact match — the question text is a key of the map;
(2) case-insensitive substring match — first map entry, in insertion
order, whose lowercased key occurs in the lowercased question text;
(3) fallback — first option label, or the empty string with no options. -/
def resolveAnswer (answer_map : AnswerMap) (q : Question) : String :=
  match List.lookup q.question answer_map with
  | some v => v
  | none =>
    let question_lower := pyLower q.question
    match answer_map.find? (fun kv => strContainsSub question_lower (pyLower kv.fst)) with
    | some kv => kv.snd
    | none =>
      match q.options with
      | [] => ""
      | o :: _ => o.label

/-- The decision returned by a `can_use_tool` callback: either a plain
`PermissionResultAllow()` or one carrying `updated_input`. -/
inductive PermissionResult
  | allow
  | allowUpdated (questions : List Question) (answers : List (String × String))
deriving DecidableEq

/-- The callback built by `build_answer_callback`: any tool other than
`AskUserQuestion` is allowed unmodified; for `AskUserQuestion` every
question is resolved and the input is replaced with the questions plus an
answers map keyed by original question text. -/
def canUseToolModel (answer_map : AnswerMap) (tool_name : String)
    (questions : List Question) : PermissionResult :=
  if tool_name ≠ "AskUserQuestion" then .allow
  else .allowUpdated questions
    (questions.map (fun q => (q.question, resolveAnswer answer_map q)))

/-- Usage statistics attached to a terminal result message, an
uninterpreted string-keyed record copied through verbatim. -/
abbrev UsageStats := List (String × Int)

/-- The SDK's terminal `ResultMessage`: error flag, payload
(`str | None`), session id, usage statistics and duration. -/
structure ResultMessage where
  is_error : Bool
  result : Option String
  session_id : Option String
  usage : Option UsageStats
  duration_ms : Int
deriving DecidableEq

/-- The `CommandResult` envelope of `output/schema.py`. The Python schema
annotates `errors` as a list of strings; the transport stores the raw
optional payload of the result message there, so the element type is kept
as `Option String` to embed the assignment of `client.py` line 127
verbatim. -/
structure CommandResult where
  success : Bool
  result : Option String := none
  errors : List (Option String) := []
  session_id : Option String := none
  usage : Option UsageStats := none
  duration_ms : Int := 0
deriving DecidableEq

/-- A system prompt override: a raw string or a
`{"type": "preset", "preset": ..., "append": ...}` dict. -/
inductive SystemPrompt
  | raw (text : String)
  | preset (preset append : String)
deriving DecidableEq

/-- The `TransportConfig` dataclass of `transport/types.py`, with its
field defaults. -/
structure TransportConfig where
  cwd : Option String := none
  timeout_seconds : ℚ := 300
  allowed_tools : Option (List String) := none
  system_prompt : Option SystemPrompt := none
  cli_path : Option String := none
  permission_mode : String := "bypassPermissions"
  setting_sources : Option (List String) := none
  max_turns : Option Int := none
  max_budget_usd : Option ℚ := none
deriving DecidableEq

/-- A `can_use_tool` callback value: the engine only ever passes the
answer callback closing over an answer map. -/
inductive ToolCallback
  | answer_callback (answer_map : AnswerMap)
deriving DecidableEq

/-- A before-tool-use hook value: the engine only ever passes the no-op
hook built by `build_noop_pretool_hook`. -/
inductive PreToolUseHook
  | noop
deriving DecidableEq

/-- The hooks mapping passed per call: one entry keyed `PreToolUse`. -/
structure HooksDict where
  pre_tool_use : PreToolUseHook
deriving DecidableEq

/-- The per-call keyword overrides accepted by `ClaudeTransport.run`
(`**kwargs`). `some v` means the caller supplied the key with a non-null
value; `none` means it was absent. `timeout_seconds` is accepted by
`**kwargs` like any other key but is never read by `run`. -/
structure RunKwargs where
  cwd : Option String := none
  allowed_tools : Option (List String) := none
  permission_mode : Option String := none
  cli_path : Option String := none
  system_prompt : Option SystemPrompt := none
  setting_sources : Option (List String) := none
  max_turns : Option Int := none
  max_budget_usd : Option ℚ := none
  can_use_tool : Option ToolCallback := none
  hooks : Option HooksDict := none
  timeout_seconds : Option ℚ := none
deriving DecidableEq

/-- The `ClaudeAgentOptions` bundle handed to the SDK, as assembled by
`ClaudeTransport.run` lines 79-100. -/
structure ClaudeAgentOptions where
  cwd : Option String
  allowed_tools : List String
  permission_mode : String
  cli_path : Option String
  system_prompt : Option SystemPrompt := none
  setting_sources : Option (List String) := none
  max_turns : Option Int := none
  max_budget_usd : Option ℚ := none
deriving DecidableEq

/-- The full argument set of the `sdk_query(**query_kwargs)` call:
prompt, options, and the optional `can_use_tool` / `hooks` keys that are
added only when supplied (`client.py` lines 102-110). -/
structure QueryKwargs where
  prompt : String
  options : ClaudeAgentOptions
  can_use_tool : Option ToolCallback := none
  hooks : Option HooksDict := none
deriving DecidableEq

/-- One message of the SDK stream: a terminal `ResultMessage` or any
other message kind (assistant turns, tool events, ...). -/
inductive SDKMessage
  | resultMsg (m : ResultMessage)
  | otherMsg
deriving DecidableEq

/-- The behaviour of the environment during one streaming run: the stream
completed within the wall-clock deadline yielding its messages in emission
order, or the single deadline guarding the entire loop elapsed first
(Python `TimeoutError` from `asyncio.timeout`), or the SDK raised one of
its exception types. -/
inductive StreamOutcome
  | completed (messages : List SDKMessage)
  | deadlineElapsed
  | sdkCLINotFound (message : String)
  | sdkProcess (message : String) (exit_code : Option Int) (stderr : Option String)
  | sdkJSONDecode (message : String) (line : Option String)
  | sdkConnection (message : String)
deriving DecidableEq

/-- The static per-command default timeout table of
`commands/__init__.py`. -/
def DEFAULT_TIMEOUTS : List (String × ℚ) :=
  [("gsd:new-project", 900), ("gsd:plan-phase", 600), ("gsd:execute-phase", 1200)]

/-- The `WorkflowEngine` construction-time configuration
(`commands/engine.py` lines 39-49). -/
structure WorkflowEngine where
  project_dir : Option String := none
  verbose : Bool := false
  quiet : Bool := false
  timeout : Option ℚ := none
deriving DecidableEq

/-- The effective timeout computed at `engine.py` line 89:
`self.timeout or DEFAULT_TIMEOUTS.get(command, 600)`. -/
def WorkflowEngine.effective_timeout (e : WorkflowEngine) (command : String) : ℚ :=
  pyOrNum e.timeout ((List.lookup command DEFAULT_TIMEOUTS).getD 600)

/-- The system-prompt text appended by the engine to the `claude_code`
preset. -/
def gsdSystemPromptAppend : String :=
  "Execute the following command non-interactively. Do not ask unnecessary clarifying questions."

/-- Everything `WorkflowEngine.run_gsd_command` hands to the transport:
the constructed prompt, the transport configuration, and the per-call
keyword overrides. -/
structure GsdRunSetup where
  prompt : String
  config : TransportConfig
  run_kwargs : RunKwargs
deriving DecidableEq

/-- Steps 1-4 of `WorkflowEngine.run_gsd_command` (`engine.py` lines
80-114): prompt construction, timeout resolution, transport configuration,
and the answer-callback/hook pair attached exactly when an answer map is
supplied. `getcwd` stands for the value of `os.getcwd()`. -/
def WorkflowEngine.run_gsd_command_setup (e : WorkflowEngine) (getcwd : String)
    (command : String) (prompt_args : String) (answer_map : Option AnswerMap)
    (prompt_override : Option String) : GsdRunSetup :=
  let prompt :=
    match prompt_override with
    | some p => p
    | none =>
      if prompt_args = "" then "/" ++ command else "/" ++ command ++ " " ++ prompt_args
  let config : TransportConfig :=
    { cwd := some (pyOrStr e.project_dir getcwd)
      system_prompt := some (.preset "claude_code" gsdSystemPromptAppend)
      setting_sources := some ["project"]
      timeout_seconds := e.effective_timeout command }
  let run_kwargs : RunKwargs :=
    match answer_map with
    | none => {}
    | some m => { can_use_tool := some (.answer_callback m), hooks := some ⟨.noop⟩ }
  ⟨prompt, config, run_kwargs⟩

namespace ClaudeTransport

/-- The `ClaudeAgentOptions` assembly of `ClaudeTransport.run`
(`client.py` lines 79-100): each field takes the per-call override when
one was supplied and falls back to the adapter's construction-time
configuration; `allowed_tools` additionally collapses a null value to the
empty list (`... or []`). -/
def buildOptions (config : TransportConfig) (kwargs : RunKwargs) : ClaudeAgentOptions :=
  { cwd := match kwargs.cwd with | some v => some v | none => config.cwd
    allowed_tools :=
      (match kwargs.allowed_tools with
       | some v => some v
       | none => config.allowed_tools).getD []
    permission_mode := match kwargs.permission_mode with | some v => v | none => config.permission_mode
    cli_path := match kwargs.cli_path with | some v => some v | none => config.cli_path
    system_prompt := match kwargs.system_prompt with | some v => some v | none => config.system_prompt
    setting_sources := match kwargs.setting_sources with | some v => some v | none => config.setting_sources
    max_turns := match kwargs.max_turns with | some v => some v | none => config.max_turns
    max_budget_usd := match kwargs.max_budget_usd with | some v => some v | none => config.max_budget_usd }

/-- The `query_kwargs` dict handed to `sdk_query` (`client.py` lines
102-110): prompt, options, and the `can_use_tool` / `hooks` keys added
only when the caller supplied them. -/
def queryOf (config : TransportConfig) (prompt : String) (kwargs : RunKwargs) : QueryKwargs :=
  { prompt := prompt
    options := buildOptions config kwargs
    can_use_tool := kwargs.can_use_tool
    hooks := kwargs.hooks }

/-- The wall-clock deadline passed to `asyncio.timeout` around the whole
streaming loop (`client.py` line 114): always the adapter's
construction-time `config.timeout_seconds`, never a per-call value. -/
def streamDeadline (config : TransportConfig) (_kwargs : RunKwargs) : ℚ :=
  config.timeout_seconds

/-- The streaming loop of `client.py` lines 113-117: `result_message`
starts as `None` and is overwritten by every `ResultMessage` seen, so it
ends as the last one in the stream. -/
def lastResultMessage (messages : List SDKMessage) : Option ResultMessage :=
  messages.foldl
    (fun acc msg => match msg with | .resultMsg r => some r | .otherMsg => acc)
    none

/-- The envelope translation of `client.py` lines 124-131. -/
def buildCommandResult (m : ResultMessage) : CommandResult :=
  { success := !m.is_error
    result := m.result
    errors := if m.is_error then [m.result] else []
    session_id := m.session_id
    usage := m.usage
    duration_ms := m.duration_ms }

/-- The message used when the stream ends with no terminal result
(`client.py` lines 119-122). -/
def noResultMsg : String := "No result message received from Claude Code"

/-- The message of the timeout error (`client.py` line 149). -/
def timeoutMessage (config : TransportConfig) : String :=
  "Claude Code subprocess timed out after " ++ numStr config.timeout_seconds ++ "s"

/-- The result of `ClaudeTransport.run` after `sdk_query` has been
started (`client.py` lines 112-151), as a function of the stream's
behaviour: a completed stream yields the envelope of its last terminal
result message, or a `ProcessError` when there was none; an elapsed
deadline yields a `TransportTimeout` carrying the construction-time
timeout; each SDK exception maps to its local typed variant. The per-call
keyword arguments are not consulted anywhere past query construction. -/
def runModel (config : TransportConfig) (_prompt : String) (_kwargs : RunKwargs)
    (outcome : StreamOutcome) : Except TransportErr CommandResult :=
  match outcome with
  | .completed messages =>
    match lastResultMessage messages with
    | none => .error (.ProcessError noResultMsg none none)
    | some m => .ok (buildCommandResult m)
  | .deadlineElapsed =>
    .error (.TransportTimeout (timeoutMessage config) config.timeout_seconds)
  | .sdkCLINotFound s => .error (.CLINotFound s)
  | .sdkProcess s ec st => .error (.ProcessError s ec st)
  | .sdkJSONDecode s line => .error (.JSONDecodeError s line)
  | .sdkConnection s => .error (.ConnectionError_ s)

end ClaudeTransport

/-- C3: for every question and every answer policy, if the question's
text is literally a key of the policy, `resolve` returns that key's value
— the exact-match step runs before the substring step, so this holds even
when some other policy key would also match as a case-insensitive
substring of the question text. -/
theorem resolve_exact_match_priority (answer_map : AnswerMap) (q : Question) (v : String)
    (h : List.lookup q.question answer_map = some v) :
    resolveAnswer answer_map q = v := by
  simp only [resolveAnswer, h]

/-- Witness for `resolve_exact_match_priority`: the policy lists a
substring-matching key (`"depth"`, which occurs case-insensitively in the
question text) before the exact key, yet the exact key's value wins. -/
theorem resolve_exact_match_priority_witness :
    resolveAnswer [("depth", "9"), ("What depth level?", "3")]
      { question := "What depth level?", options := [] } = "3" ∧
    strContainsSub (pyLower "What depth level?") (pyLower "depth") = true :=
  ⟨resolve_exact_match_priority _ _ _ rfl, rfl⟩

/-- C4: for every question matched by no policy key — neither exactly nor
as a case-insensitive substring — `resolve` returns the label of the
question's first option when it has options, and the empty string when it
has none. -/
theorem resolve_fallback_rule (answer_map : AnswerMap) (q : Question)
    (hexact : List.lookup q.question answer_map = none)
    (hsub : ∀ kv ∈ answer_map, strContainsSub (pyLower q.question) (pyLower kv.fst) = false) :
    resolveAnswer answer_map q =
      match q.options with
      | [] => ""
      | o :: _ => o.label := by
  have hfind : answer_map.find?
      (fun kv => strContainsSub (pyLower q.question) (pyLower kv.fst)) = none := by
    rw [List.find?_eq_none]
    intro kv hkv
    simp [hsub kv hkv]
  simp only [resolveAnswer, hexact, hfind]

/-- Witness for `resolve_fallback_rule`: an unmatched question with two
options resolves to the first option's label, and an unmatched question
with no options resolves to the empty string. -/
theorem resolve_fallback_rule_witness :
    resolveAnswer [("alpha", "1")]
      { question := "Unknown question?",
        options := [{ label := "Alpha" }, { label := "Beta" }] } = "Alpha" ∧
    resolveAnswer [("alpha", "1")] { question := "Unknown question?", options := [] } = "" :=
  ⟨resolve_fallback_rule _ _ rfl (by decide), resolve_fallback_rule _ _ rfl (by decide)⟩

/-- A stream containing no terminal result message leaves the
`result_message` accumulator at its initial `None`. -/
theorem lastResultMessage_of_no_result (messages : List SDKMessage)
    (h : ∀ m ∈ messages, m = SDKMessage.otherMsg) :
    ClaudeTransport.lastResultMessage messages = none := by
  induction messages with
  | nil => rfl
  | cons m rest ih =>
    have hm : m = SDKMessage.otherMsg := h m (List.mem_cons_self m rest)
    subst hm
    have : ClaudeTransport.lastResultMessage (SDKMessage.otherMsg :: rest)
        = ClaudeTransport.lastResultMessage rest := rfl
    rw [this]
    exact ih (fun x hx => h x (List.mem_cons_of_mem _ hx))

/-- C5: for every run whose stream terminates within the deadline without
ever emitting a terminal result message, `run` raises a `ProcessError`
whose message says no result message was received; it never returns a
success envelope in this case. -/
theorem run_no_result_raises_process_error (config : TransportConfig) (prompt : String)
    (kwargs : RunKwargs) (messages : List SDKMessage)
    (h : ∀ m ∈ messages, m = SDKMessage.otherMsg) :
    ClaudeTransport.runModel config prompt kwargs (.completed messages)
      = .error (.ProcessError "No result message received from Claude Code" none none) := by
  have hlast := lastResultMessage_of_no_result messages h
  simp only [ClaudeTransport.runModel, hlast]
  rfl

/-- Witness for `run_no_result_raises_process_error`: a stream of two
non-result messages. -/
theorem run_no_result_raises_process_error_witness :
    ClaudeTransport.runModel {} "p" {} (.completed [.otherMsg, .otherMsg])
      = .error (.ProcessError "No result message received from Claude Code" none none) :=
  run_no_result_raises_process_error {} "p" {} [.otherMsg, .otherMsg] (by decide)

/-- C6: for every run whose wall-clock deadline elapses before a terminal
result message arrives, a `TransportTimeout` is raised carrying exactly
the configured `timeout_seconds`; the deadline guarding the streaming
loop is itself the configured timeout and bounds the entire loop (the
timeout scope of the model wraps the whole stream, not each message). -/
theorem run_deadline_raises_timeout (config : TransportConfig) (prompt : String)
    (kwargs : RunKwargs) :
    ClaudeTransport.runModel config prompt kwargs .deadlineElapsed
      = .error (.TransportTimeout (ClaudeTransport.timeoutMessage config)
          config.timeout_seconds) ∧
    ClaudeTransport.streamDeadline config kwargs = config.timeout_seconds :=
  ⟨rfl, rfl⟩

/-- C7: for every stream holding at least one terminal result message,
`run` builds its envelope from the last such message: `success` is the
negation of the error flag, `result` is the payload, `errors` is the
singleton payload list exactly when the error flag is set, and
`session_id`, `usage` and `duration_ms` are copied through verbatim;
appending a result message to any stream makes it the authoritative one. -/
theorem run_translates_last_result (config : TransportConfig) (prompt : String)
    (kwargs : RunKwargs) :
    (∀ (messages : List SDKMessage) (r : ResultMessage),
      ClaudeTransport.lastResultMessage messages = some r →
      ClaudeTransport.runModel config prompt kwargs (.completed messages)
        = .ok { success := !r.is_error
                result := r.result
                errors := if r.is_error then [r.result] else []
                session_id := r.session_id
                usage := r.usage
                duration_ms := r.duration_ms }) ∧
    (∀ (messages : List SDKMessage) (r : ResultMessage),
      ClaudeTransport.lastResultMessage (messages ++ [.resultMsg r]) = some r) := by
  constructor
  · intro messages r h
    simp only [ClaudeTransport.runModel, h]
    rfl
  · intro messages r
    simp [ClaudeTransport.lastResultMessage, List.foldl_append]

/-- Witness for `run_translates_last_result`: a stream with two result
messages is translated from the second (last) one, whose error flag is
set, yielding a failure envelope with the payload also in `errors`. -/
theorem run_translates_last_result_witness :
    ClaudeTransport.runModel {} "p" {}
      (.completed [.resultMsg ⟨false, some "ok", some "s1", none, 7⟩,
                   .resultMsg ⟨true, some "late", some "s2", none, 9⟩])
      = .ok { success := false, result := some "late", errors := [some "late"],
              session_id := some "s2", usage := none, duration_ms := 9 } :=
  (run_translates_last_result {} "p" {}).1 _ ⟨true, some "late", some "s2", none, 9⟩ rfl

/-- C1 counterexample: a terminal result message with the error flag set
and payload `"boom"` is translated into an envelope with `success =
false` whose `result` field is the payload — not null — so the claim
that `success = false` implies a null `result` fails on the code. -/
theorem run_error_envelope_counterexample :
    ClaudeTransport.runModel {} "p" {}
      (.completed [.resultMsg ⟨true, some "boom", some "sess", none, 5⟩])
      = .ok { success := false, result := some "boom", errors := [some "boom"],
              session_id := some "sess", usage := none, duration_ms := 5 } ∧
    (some "boom" : Option String) ≠ none :=
  ⟨rfl, by decide⟩

/-- C1 (amended): for every terminal result envelope returned by `run`,
`success = false` implies that `errors` is the non-empty singleton
holding the message payload and that `result` equals that same payload
(null only when the payload itself was null) — the envelope is never
partially filled, but the `result` field is copied through rather than
nulled on failure. -/
theorem run_error_envelope_never_partial (config : TransportConfig) (prompt : String)
    (kwargs : RunKwargs) (outcome : StreamOutcome) (env : CommandResult)
    (hok : ClaudeTransport.runModel config prompt kwargs outcome = .ok env)
    (hfail : env.success = false) :
    env.errors = [env.result] ∧ env.errors ≠ [] := by
  cases outcome with
  | completed messages =>
    cases hlast : ClaudeTransport.lastResultMessage messages with
    | none => simp [ClaudeTransport.runModel, hlast] at hok
    | some m =>
      simp only [ClaudeTransport.runModel, hlast] at hok
      injection hok with henv
      subst henv
      cases herr : m.is_error with
      | false =>
        exfalso
        simp [ClaudeTransport.buildCommandResult, herr] at hfail
      | true =>
        refine ⟨?_, ?_⟩ <;> simp [ClaudeTransport.buildCommandResult, herr]
  | deadlineElapsed => simp [ClaudeTransport.runModel] at hok
  | sdkCLINotFound s => simp [ClaudeTransport.runModel] at hok
  | sdkProcess s ec st => simp [ClaudeTransport.runModel] at hok
  | sdkJSONDecode s line => simp [ClaudeTransport.runModel] at hok
  | sdkConnection s => simp [ClaudeTransport.runModel] at hok

/-- Witness for `run_error_envelope_never_partial`: applied to a concrete
failed run. -/
theorem run_error_envelope_never_partial_witness :
    ([some "err"] : List (Option String)) = [some "err"] ∧
    ([some "err"] : List (Option String)) ≠ [] := by
  have h := run_error_envelope_never_partial {} "p" {}
    (.completed [.resultMsg ⟨true, some "err", none, none, 0⟩])
    { success := false, result := some "err", errors := [some "err"],
      session_id := none, usage := none, duration_ms := 0 } rfl rfl
  exact h

/-- C2 counterexample: an explicit override of `0` does not win — Python
`self.timeout or ...` treats `0` as falsy, so the table entry (600 for
`gsd:plan-phase`) is used instead of the override. -/
theorem effective_timeout_zero_override_counterexample :
    WorkflowEngine.effective_timeout { timeout := some 0 } "gsd:plan-phase" = 600 ∧
    (600 : ℚ) ≠ 0 :=
  ⟨rfl, by norm_num⟩

/-- C2 (amended): the orchestrator's effective timeout is the explicit
override whenever a non-zero override is supplied; with no override — or
an override of exactly `0`, which Python truthiness treats as unset — it
is 900 for `gsd:new-project`, 600 for `gsd:plan-phase`, 1200 for
`gsd:execute-phase`, and 600 for any other command; the transport
configuration built by the engine carries exactly this value. -/
theorem effective_timeout_resolution :
    (∀ (e : WorkflowEngine) (t : ℚ) (command : String),
      e.timeout = some t → t ≠ 0 → e.effective_timeout command = t) ∧
    (∀ (e : WorkflowEngine), e.timeout = none ∨ e.timeout = some 0 →
      e.effective_timeout "gsd:new-project" = 900 ∧
      e.effective_timeout "gsd:plan-phase" = 600 ∧
      e.effective_timeout "gsd:execute-phase" = 1200) ∧
    (∀ (e : WorkflowEngine) (command : String),
      e.timeout = none ∨ e.timeout = some 0 →
      command ≠ "gsd:new-project" → command ≠ "gsd:plan-phase" →
      command ≠ "gsd:execute-phase" → e.effective_timeout command = 600) ∧
    (∀ (e : WorkflowEngine) (getcwd command prompt_args : String)
        (am : Option AnswerMap) (po : Option String),
      (e.run_gsd_command_setup getcwd command prompt_args am po).config.timeout_seconds
        = e.effective_timeout command) := by
  refine ⟨?_, ?_, ?_, ?_⟩
  · intro e t command ht htz
    simp [WorkflowEngine.effective_timeout, pyOrNum, ht, htz]
  · intro e h
    have l1 : (List.lookup "gsd:new-project" DEFAULT_TIMEOUTS).getD 600 = 900 := rfl
    have l2 : (List.lookup "gsd:plan-phase" DEFAULT_TIMEOUTS).getD 600 = 600 := rfl
    have l3 : (List.lookup "gsd:execute-phase" DEFAULT_TIMEOUTS).getD 600 = 1200 := rfl
    rcases h with h | h <;>
      exact ⟨by simp [WorkflowEngine.effective_timeout, pyOrNum, h, l1],
             by simp [WorkflowEngine.effective_timeout, pyOrNum, h, l2],
             by simp [WorkflowEngine.effective_timeout, pyOrNum, h, l3]⟩
  · intro e command h h1 h2 h3
    have b1 : (command == "gsd:new-project") = false := beq_eq_false_iff_ne.mpr h1
    have b2 : (command == "gsd:plan-phase") = false := beq_eq_false_iff_ne.mpr h2
    have b3 : (command == "gsd:execute-phase") = false := beq_eq_false_iff_ne.mpr h3
    have hlook : List.lookup command DEFAULT_TIMEOUTS = none := by
      simp [DEFAULT_TIMEOUTS, List.lookup, b1, b2, b3]
    rcases h with h | h <;>
      simp [WorkflowEngine.effective_timeout, pyOrNum, h, hlook]
  · intro e getcwd command prompt_args am po
    rfl

/-- Witness for `effective_timeout_resolution`: a non-zero override wins,
and with no override the known and unknown commands get their table
values. -/
theorem effective_timeout_resolution_witness :
    WorkflowEngine.effective_timeout { timeout := some 42 } "gsd:plan-phase" = 42 ∧
    WorkflowEngine.effective_timeout {} "gsd:new-project" = 900 ∧
    WorkflowEngine.effective_timeout {} "gsd:status" = 600 :=
  ⟨effective_timeout_resolution.1 _ 42 _ rfl (by norm_num),
   (effective_timeout_resolution.2.1 {} (Or.inl rfl)).1,
   effective_timeout_resolution.2.2.1 {} "gsd:status" (Or.inl rfl)
     (by decide) (by decide) (by decide)⟩

/-- C8: a run with a null answer policy passes neither a permission
callback nor a before-tool-use hook to the transport, and neither key
reaches the SDK query — absence, not a no-op value; conversely, when a
policy is supplied, the answer callback and the no-op PreToolUse hook are
attached together as a unit and both reach the SDK query. -/
theorem answer_policy_hook_coupling :
    (∀ (e : WorkflowEngine) (getcwd command prompt_args : String) (po : Option String),
      (e.run_gsd_command_setup getcwd command prompt_args none po).run_kwargs.can_use_tool
        = none ∧
      (e.run_gsd_command_setup getcwd command prompt_args none po).run_kwargs.hooks = none ∧
      (ClaudeTransport.queryOf
        (e.run_gsd_command_setup getcwd command prompt_args none po).config
        (e.run_gsd_command_setup getcwd command prompt_args none po).prompt
        (e.run_gsd_command_setup getcwd command prompt_args none po).run_kwargs).can_use_tool
        = none ∧
      (ClaudeTransport.queryOf
        (e.run_gsd_command_setup getcwd command prompt_args none po).config
        (e.run_gsd_command_setup getcwd command prompt_args none po).prompt
        (e.run_gsd_command_setup getcwd command prompt_args none po).run_kwargs).hooks
        = none) ∧
    (∀ (e : WorkflowEngine) (getcwd command prompt_args : String) (m : AnswerMap)
        (po : Option String),
      (e.run_gsd_command_setup getcwd command prompt_args (some m) po).run_kwargs.can_use_tool
        = some (.answer_callback m) ∧
      (e.run_gsd_command_setup getcwd command prompt_args (some m) po).run_kwargs.hooks
        = some ⟨.noop⟩ ∧
      (ClaudeTransport.queryOf
        (e.run_gsd_command_setup getcwd command prompt_args (some m) po).config
        (e.run_gsd_command_setup getcwd command prompt_args (some m) po).prompt
        (e.run_gsd_command_setup getcwd command prompt_args (some m) po).run_kwargs).can_use_tool
        = some (.answer_callback m) ∧
      (ClaudeTransport.queryOf
        (e.run_gsd_command_setup getcwd command prompt_args (some m) po).config
        (e.run_gsd_command_setup getcwd command prompt_args (some m) po).prompt
        (e.run_gsd_command_setup getcwd command prompt_args (some m) po).run_kwargs).hooks
        = some ⟨.noop⟩) :=
  ⟨fun _ _ _ _ _ => ⟨rfl, rfl, rfl, rfl⟩, fun _ _ _ _ _ _ => ⟨rfl, rfl, rfl, rfl⟩⟩

/-- C9 counterexample: a `ProcessError` whose `exit_code` is `0` renders
the zero field (`exit_code is not None` is the only guard), so the claim
that fields which are absent *or zero* are omitted fails on the code. -/
theorem errors_str_zero_exit_code_counterexample :
    (TransportErr.ProcessError "boom" (some 0) none).str = "boom | exit_code=0" ∧
    "boom | exit_code=0" ≠ "boom" :=
  ⟨rfl, by decide⟩

/-- C9 (amended): each variant's string rendering appends every rendered
context field in the stable form `<message> | <field>=<value>`, with the
following per-field inclusion rules: `exit_code` is rendered whenever it
is non-null, including zero; `stderr` is rendered whenever it is non-null
and non-empty; `timeout_seconds` is rendered exactly when positive;
`raw_output` is rendered whenever non-null, truncated to its first 200
characters followed by an ellipsis marker when longer. -/
theorem errors_str_rendering :
    (∀ m, (TransportErr.CLINotFound m).str = m) ∧
    (∀ m, (TransportErr.ConnectionError_ m).str = m) ∧
    (∀ m, (TransportErr.ProcessError m none none).str = m) ∧
    (∀ m n, (TransportErr.ProcessError m (some n) none).str
      = m ++ " | " ++ ("exit_code=" ++ toString n)) ∧
    (∀ m, (TransportErr.ProcessError m none (some "")).str = m) ∧
    (∀ m s, s ≠ "" → (TransportErr.ProcessError m none (some s)).str
      = m ++ " | " ++ ("stderr=" ++ pyRepr s)) ∧
    (∀ m n, (TransportErr.ProcessError m (some n) (some "")).str
      = m ++ " | " ++ ("exit_code=" ++ toString n)) ∧
    (∀ m n s, s ≠ "" → (TransportErr.ProcessError m (some n) (some s)).str
      = m ++ " | " ++ ("exit_code=" ++ toString n) ++ " | " ++ ("stderr=" ++ pyRepr s)) ∧
    (∀ m t, 0 < t → (TransportErr.TransportTimeout m t).str
      = m ++ " | " ++ ("timeout_seconds=" ++ numStr t)) ∧
    (∀ m t, t ≤ 0 → (TransportErr.TransportTimeout m t).str = m) ∧
    (∀ m, (TransportErr.JSONDecodeError m none).str = m) ∧
    (∀ (m r : String), r.length ≤ 200 → (TransportErr.JSONDecodeError m (some r)).str
      = m ++ " | " ++ ("raw_output=" ++ pyRepr r)) ∧
    (∀ (m r : String), 200 < r.length → (TransportErr.JSONDecodeError m (some r)).str
      = m ++ " | " ++ ("raw_output=" ++ pyRepr (r.take 200 ++ "..."))) := by
  refine ⟨fun m => rfl, fun m => rfl, fun m => rfl, fun m n => rfl, fun m => rfl,
    ?_, fun m n => rfl, ?_, ?_, ?_, fun m => rfl, ?_, ?_⟩
  · intro m s hs
    simp only [TransportErr.str]
    rw [if_neg hs]
    rfl
  · intro m n s hs
    simp only [TransportErr.str]
    rw [if_neg hs]
    rfl
  · intro m t ht
    simp only [TransportErr.str]
    rw [if_pos ht]
  · intro m t ht
    simp only [TransportErr.str]
    rw [if_neg (not_lt.mpr ht)]
  · intro m r h
    have htake : r.take 200 = r := by
      have hd : (r.take 200).data = r.data := by
        rw [String.data_take]
        exact List.take_of_length_le h
      cases hr : r.take 200
      cases r
      simp only [hr] at hd
      exact congrArg String.mk (by simpa using hd)
    simp only [TransportErr.str]
    rw [if_neg (not_lt.mpr h), htake]
  · intro m r h
    simp only [TransportErr.str]
    rw [if_pos h]

/-- Witness for `errors_str_rendering`: the guarded cases applied at
concrete inputs, including a 201-character raw output that gets
truncated. -/
theorem errors_str_rendering_witness :
    (TransportErr.ProcessError "m" none (some "bad")).str
      = "m" ++ " | " ++ ("stderr=" ++ pyRepr "bad") ∧
    (TransportErr.TransportTimeout "m" 5).str
      = "m" ++ " | " ++ ("timeout_seconds=" ++ numStr 5) ∧
    (TransportErr.TransportTimeout "m" 0).str = "m" ∧
    (TransportErr.JSONDecodeError "m" (some "x")).str
      = "m" ++ " | " ++ ("raw_output=" ++ pyRepr "x") ∧
    (TransportErr.JSONDecodeError "m"
        (some (String.mk (List.replicate 201 (Char.ofNat 97))))).str
      = "m" ++ " | " ++ ("raw_output="
          ++ pyRepr ((String.mk (List.replicate 201 (Char.ofNat 97))).take 200 ++ "...")) :=
  ⟨errors_str_rendering.2.2.2.2.2.1 "m" "bad" (by decide),
   errors_str_rendering.2.2.2.2.2.2.2.2.1 "m" 5 (by norm_num),
   errors_str_rendering.2.2.2.2.2.2.2.2.2.1 "m" 0 le_rfl,
   errors_str_rendering.2.2.2.2.2.2.2.2.2.2.2.1 "m" "x" (by decide),
   errors_str_rendering.2.2.2.2.2.2.2.2.2.2.2.2 "m" _
     (by norm_num [String.length])⟩

/-- C10: the wall-clock deadline guarding the streaming loop and the
`timeout_seconds` carried by a raised timeout always come from the
adapter's construction-time configuration: a per-call `timeout_seconds`
keyword changes neither the SDK query, the deadline, nor any run result,
while the documented per-call overrides (working directory, allowed
tools, permission mode, CLI path, system prompt, setting sources, turn
limit, spend limit) do reach the assembled session options. -/
theorem run_timeout_from_config_only :
    (∀ (config : TransportConfig) (prompt : String) (kwargs : RunKwargs) (t : Option ℚ),
      ClaudeTransport.queryOf config prompt { kwargs with timeout_seconds := t }
        = ClaudeTransport.queryOf config prompt kwargs ∧
      ClaudeTransport.streamDeadline config { kwargs with timeout_seconds := t }
        = ClaudeTransport.streamDeadline config kwargs ∧
      (∀ (outcome : StreamOutcome),
        ClaudeTransport.runModel config prompt { kwargs with timeout_seconds := t } outcome
          = ClaudeTransport.runModel config prompt kwargs outcome)) ∧
    (∀ (config : TransportConfig) (kwargs : RunKwargs),
      ClaudeTransport.streamDeadline config kwargs = config.timeout_seconds) ∧
    (∀ (config : TransportConfig) (prompt : String) (kwargs : RunKwargs),
      ClaudeTransport.runModel config prompt kwargs .deadlineElapsed
        = .error (.TransportTimeout (ClaudeTransport.timeoutMessage config)
            config.timeout_seconds)) ∧
    (∀ (config : TransportConfig) (kwargs : RunKwargs) (p : String)
        (tools : List String) (pm cp : String) (sp : SystemPrompt)
        (ss : List String) (mt : Int) (mb : ℚ),
      (ClaudeTransport.buildOptions config { kwargs with cwd := some p }).cwd = some p ∧
      (ClaudeTransport.buildOptions config
        { kwargs with allowed_tools := some tools }).allowed_tools = tools ∧
      (ClaudeTransport.buildOptions config
        { kwargs with permission_mode := some pm }).permission_mode = pm ∧
      (ClaudeTransport.buildOptions config
        { kwargs with cli_path := some cp }).cli_path = some cp ∧
      (ClaudeTransport.buildOptions config
        { kwargs with system_prompt := some sp }).system_prompt = some sp ∧
      (ClaudeTransport.buildOptions config
        { kwargs with setting_sources := some ss }).setting_sources = some ss ∧
      (ClaudeTransport.buildOptions config
        { kwargs with max_turns := some mt }).max_turns = some mt ∧
      (ClaudeTransport.buildOptions config
        { kwargs with max_budget_usd := some mb }).max_budget_usd = some mb) :=
  ⟨fun _ _ _ _ => ⟨rfl, rfl, fun _ => rfl⟩,
   fun _ _ => rfl,
   fun _ _ _ => rfl,
   fun _ _ _ _ _ _ _ _ _ _ => ⟨rfl, rfl, rfl, rfl, rfl, rfl, rfl, rfl⟩⟩
